import Mathlib

/-!
Verification of the payment-request lifecycle orchestration and funding
response classification of the wise_mcp repository.

The Python sources are shallowly embedded:
* JSON values are modelled by `Json`; numbers are modelled as rationals
  (the code never performs arithmetic on them, only passes them through).
* Python exceptions are modelled by `PyError`; fallible code returns
  `Except PyError _`.
* The `Money` dataclass (src/wise_mcp/api/types/payment_request.py, lines
  9-13) is modelled as an attribute map together with its declared field
  names, because the sources construct it with keyword arguments and read
  attributes that do not always match the declared fields; Python keyword
  construction and attribute lookup are modelled explicitly so those
  mismatches surface as the TypeError/AttributeError they raise at runtime.
* HTTP traffic is external: each client function takes the remote response
  (status code, headers, parsed-or-unparseable body) as a parameter, and the
  orchestration in invoice_creation.py is parametrised by the outcome of
  each remote call while recording the trace of calls it issues.
-/

/-- JSON values as delivered by the remote system and built for payloads.
Numbers are modelled as rationals (no arithmetic is ever performed on them). -/
inductive Json where
  | null
  | str (s : String)
  | num (q : Rat)
  | bool (b : Bool)
  | arr (elems : List Json)
  | obj (fields : List (String × Json))

/-- Python exceptions that the embedded code can raise. -/
inductive PyError where
  | typeError (msg : String)
  | valueError (msg : String)
  | keyError (key : String)
  | attributeError (name : String)
  | nameError (name : String)
  | exception (msg : String)
  | jsonDecodeError (msg : String)
deriving DecidableEq, Repr

/-- A single quote character, kept out of string literals. -/
def sglq : String := String.singleton (Char.ofNat 39)

/-- str(error) as interpolated by the f-strings of the sources. -/
def pyErrMsg : PyError → String
  | .typeError m => m
  | .valueError m => m
  | .keyError k => k
  | .attributeError n => n
  | .nameError n => "name " ++ n ++ " is not defined"
  | .exception m => m
  | .jsonDecodeError m => m

/-- Python truthiness of a JSON value (None, empty string, zero, empty
containers are falsy). -/
def jsonTruthy : Json → Bool
  | .null => false
  | .str s => s != ""
  | .num q => q != 0
  | .bool b => b
  | .arr xs => !xs.isEmpty
  | .obj fs => !fs.isEmpty

/-- Python truthiness of an optional string argument (None and "" falsy). -/
def optStrTruthy : Option String → Bool
  | some s => s != ""
  | none => false

/-- Python str() of a JSON value as used in f-string interpolation.  The
rendering of containers and numbers is abbreviated: no verified property
depends on it, only on strings passing through verbatim. -/
def pyStr : Json → String
  | .null => "None"
  | .str s => s
  | .num q => toString q
  | .bool b => if b then "True" else "False"
  | .arr _ => "[" ++ "..." ++ "]"
  | .obj _ => "\x7b...\x7d"

/-- dict subscript access `j[k]`: KeyError when the key is absent, TypeError
when the value is not a dict. -/
def pyGetItem (j : Json) (k : String) : Except PyError Json :=
  match j with
  | .obj fs =>
    match fs.lookup k with
    | some v => .ok v
    | none => .error (.keyError k)
  | _ => .error (.typeError "object is not subscriptable")

/-- dict method `j.get(k)`: None when the key is absent, AttributeError when
the receiver is not a dict. -/
def pyDictGet (j : Json) (k : String) : Except PyError (Option Json) :=
  match j with
  | .obj fs => .ok (fs.lookup k)
  | _ => .error (.attributeError "get")

/-- dict method `j.get(k)` on a value already known to be a dict (used for the
optional response fields once the mandatory subscripts have succeeded);
non-dict receivers yield None here because the path is unreachable then. -/
def pyGetOpt (j : Json) (k : String) : Option Json :=
  match j with
  | .obj fs => fs.lookup k
  | _ => none

/-- A Python object as a map from attribute names to values. -/
abbrev PyObj := List (String × Json)

/-- Attribute lookup on a dataclass instance: AttributeError when the
attribute was never set. -/
def pyGetAttr (m : PyObj) (attr : String) : Except PyError Json :=
  match m.lookup attr with
  | some v => .ok v
  | none => .error (.attributeError attr)

/-- Python dataclass construction by keyword arguments: the call succeeds
exactly when every keyword names a declared field and every declared field
(none of which has a default here) receives a value; otherwise Python raises
TypeError. -/
def dataclassNew (declared : List String) (kwargs : List (String × Json)) :
    Except PyError PyObj :=
  if kwargs.all (fun kv => declared.contains kv.1) &&
      declared.all (fun f => (kwargs.lookup f).isSome) then
    .ok kwargs
  else
    .error (.typeError "unexpected or missing keyword argument")

/-- The field names declared by the Money dataclass
(src/wise_mcp/api/types/payment_request.py, lines 9-13). -/
def moneyFields : List String := ["amount", "currency"]

/-- Constructing a Money instance by keyword arguments. -/
def moneyNew (kwargs : List (String × Json)) : Except PyError PyObj :=
  dataclassNew moneyFields kwargs

/-- Whether an Except value carries a successful result. -/
def exceptIsOk {ε α : Type} : Except ε α → Bool
  | .ok _ => true
  | .error _ => false

/-- The local projection of a remote payment request
(PaymentRequestV2, payment_request.py lines 62-79).  The dataclass does not
enforce its annotations, so fields hold raw JSON values; `amount` holds the
Money instance. -/
structure PaymentRequestV2 where
  id : Json
  amount : PyObj
  profile_id : Json
  balance_id : Json
  creator : Json
  status : Json
  link : Option Json := none
  created_at : Option Json := none
  published_at : Option Json := none
  due_at : Option Json := none
  message : Option Json := none
  description : Option Json := none
  reference : Option Json := none
  request_type : Option Json := none
  invoice : Option Json := none

/-- The response-to-entity mapping duplicated verbatim at the three
orchestration call sites (wise_client.py lines 470-489, 571-590 and 621-640):
subscripts for the mandatory fields, `Money(value=..., currency=...)` for the
amount, `.get` for the optional fields.  Argument evaluation follows the
Python left-to-right keyword order, so the Money construction is reached
right after the two amount subscripts. -/
def decodePaymentRequest (r : Json) : Except PyError PaymentRequestV2 :=
  match pyGetItem r "id" with
  | .error e => .error e
  | .ok idJ =>
    match pyGetItem r "amount" with
    | .error e => .error e
    | .ok amtJ =>
      match pyGetItem amtJ "value" with
      | .error e => .error e
      | .ok vJ =>
        match pyGetItem amtJ "currency" with
        | .error e => .error e
        | .ok cJ =>
          match moneyNew [("value", vJ), ("currency", cJ)] with
          | .error e => .error e
          | .ok money =>
            match pyGetItem r "profileId" with
            | .error e => .error e
            | .ok profileJ =>
              match pyGetItem r "balanceId" with
              | .error e => .error e
              | .ok balJ =>
                match pyGetItem r "creator" with
                | .error e => .error e
                | .ok creatorJ =>
                  match pyGetItem r "status" with
                  | .error e => .error e
                  | .ok statusJ =>
                    .ok { id := idJ, amount := money, profile_id := profileJ,
                          balance_id := balJ, creator := creatorJ,
                          status := statusJ,
                          link := pyGetOpt r "link",
                          created_at := pyGetOpt r "createdAt",
                          published_at := pyGetOpt r "publishedAt",
                          due_at := pyGetOpt r "dueAt",
                          message := pyGetOpt r "message",
                          description := pyGetOpt r "description",
                          reference := pyGetOpt r "reference",
                          request_type := pyGetOpt r "requestType",
                          invoice := pyGetOpt r "invoice" }

/-- An HTTP response as the transport collaborator delivers it: status code,
headers and the result of response.json() (`Except.error ()` when the body
does not parse as JSON). -/
structure HttpResponse where
  status_code : Int
  headers : List (String × String)
  body : Except Unit Json

/-- Header lookup.  The requests library exposes headers case-insensitively;
header names are modelled pre-canonicalised, so lookup is exact. -/
def headerGet (hs : List (String × String)) (k : String) : Option String :=
  (hs.find? (fun kv => kv.1 == k)).map (fun kv => kv.2)

/-- The error handler _handle_error (wise_client.py lines 689-705).  When
the body parses,
`error_data` is bound and line 705 raises an Exception interpolating
`error_data` itself (the `error_msg` extracted on lines 700-701 is computed
but never used).  When the body does not parse, the except branch sets only
`error_msg`, so `error_data` is unbound at line 705 and Python raises
NameError instead. -/
def handleError (resp : HttpResponse) : PyError :=
  match resp.body with
  | .ok j => .exception ("Wise API Error: " ++ pyStr j)
  | .error _ => .nameError "error_data"

/-- Modelled from the spec: the Funded variant of FundingOutcome
(spec section 3); the file declaring WiseFundResponse is not among the
sources, its shape is taken from the construction at wise_client.py lines
263-267 and the spec. -/
structure WiseFundResponse where
  type : Json
  status : Json
  error_code : Option Json

/-- Modelled from the spec: the ChallengeRequired variant of FundingOutcome
(spec section 3); the file declaring WiseScaResponse is not among the
sources, its shape is taken from the construction at wise_client.py lines
253-255 and the spec. -/
structure WiseScaResponse where
  one_time_token : Option String

/-- Modelled from the spec: the container returned by fund_transfer; exactly
one of the two variants is populated per attempt (spec section 3). -/
structure WiseFundWithScaResponse where
  fund_response : Option WiseFundResponse := none
  sca_response : Option WiseScaResponse := none

/-- The Funded payload built from a 2xx (or fallen-through) body,
wise_client.py lines 261-267: `.get` with default "" for type and status,
`.get` for errorCode. -/
def mkFundResponse (body : Json) : Except PyError WiseFundResponse :=
  match pyDictGet body "type" with
  | .error e => .error e
  | .ok t =>
    match pyDictGet body "status" with
    | .error e => .error e
    | .ok s =>
      match pyDictGet body "errorCode" with
      | .error e => .error e
      | .ok ec =>
        .ok { type := t.getD (.str ""), status := s.getD (.str ""),
              error_code := ec }

/-- fund_transfer (wise_client.py lines 214-268) given the payment-method
type argument and the remote response.  The source checks
`if status_code == 403:` with a nested REJECTED test and attaches the
`elif status_code >= 400:` to the OUTER if, so a 403 whose approval-result
header is not "REJECTED" skips the error branch and falls through to the
JSON body parse; the embedding reproduces that control flow. -/
def fund_transfer (ptype : String) (resp : HttpResponse) :
    Except PyError WiseFundWithScaResponse :=
  if ptype ≠ "BALANCE" then
    .error (.valueError ("Only " ++ sglq ++ "BALANCE" ++ sglq ++
      " payment type is supported for funding transfers."))
  else if resp.status_code = 403 ∧
      headerGet resp.headers "x-2fa-approval-result" = some "REJECTED" then
    .ok { fund_response := none,
          sca_response := some
            { one_time_token := headerGet resp.headers "x-2fa-approval" } }
  else if resp.status_code ≠ 403 ∧ resp.status_code ≥ 400 then
    .error (handleError resp)
  else
    match resp.body with
    | .error _ => .error (.jsonDecodeError "Expecting value")
    | .ok bodyJson =>
      match mkFundResponse bodyJson with
      | .error e => .error e
      | .ok fr => .ok { fund_response := some fr, sca_response := none }

/-- Payer shape (PayerV2 dataclass, payment_request.py lines 16-22). -/
structure PayerV2 where
  contact_id : Option String := none
  name : Option String := none
  email : Option String := none
  address : Option (List (String × Json)) := none

/-- Tax information for a line item
(LineItemTax dataclass, payment_request.py lines 25-30). -/
structure LineItemTax where
  name : String
  percentage : Rat
  behaviour : String

/-- A line item (LineItem dataclass, payment_request.py lines 33-39); the
unit price is a Money instance, modelled as an attribute map. -/
structure LineItem where
  name : String
  unit_price : PyObj
  quantity : Int
  tax : Option LineItemTax := none

/-- The invoice command object (PaymentRequestInvoiceCommand dataclass,
payment_request.py lines 42-59); the defaults mirror `__post_init__`.
`invoice_number` holds raw JSON because the orchestration may store the
provider-generated value taken from a response mapping. -/
structure PaymentRequestInvoiceCommand where
  request_type : String := "INVOICE"
  selected_payment_methods : List String := ["ACCOUNT_DETAILS"]
  balance_id : Int
  due_at : String
  invoice_number : Option Json := none
  payer : Option PayerV2 := none
  line_items : List LineItem := []
  issue_date : String
  message : Option String := none

/-- One conditionally-present string field of the payer payload: included
exactly when the value is truthy (wise_client.py lines 531-536). -/
def optStrField (k : String) (v : Option String) : List (String × Json) :=
  match v with
  | some s => if s != "" then [(k, Json.str s)] else []
  | none => []

/-- The payer sub-payload (wise_client.py lines 529-539): starts empty and
conditionally adds contactId, name, email and address, in that order. -/
def encodePayer (p : PayerV2) : Json :=
  Json.obj (optStrField "contactId" p.contact_id ++
    optStrField "name" p.name ++
    optStrField "email" p.email ++
    (match p.address with
     | some ad => if ad.isEmpty then [] else [("address", Json.obj ad)]
     | none => []))

/-- One line-item payload (wise_client.py lines 542-559): the unit price is
read through the attributes `value` and `currency` of the Money instance
(line 546 reads `item.unit_price.value`), and the tax block is appended only
when a tax is set. -/
def encodeLineItem (item : LineItem) : Except PyError Json :=
  match pyGetAttr item.unit_price "value" with
  | .error e => .error e
  | .ok v =>
    match pyGetAttr item.unit_price "currency" with
    | .error e => .error e
    | .ok c =>
      let base := [("name", Json.str item.name),
                   ("unitPrice", Json.obj [("value", v), ("currency", c)]),
                   ("quantity", Json.num (item.quantity : Rat))]
      match item.tax with
      | some t =>
        .ok (Json.obj (base ++ [("tax", Json.obj
          [("name", Json.str t.name), ("percentage", Json.num t.percentage),
           ("behaviour", Json.str t.behaviour)])]))
      | none => .ok (Json.obj base)

/-- The full-update payload built by update_payment_request_v2
(wise_client.py lines 513-559): the base dict, then invoiceNumber, message
and payer added only when truthy, then the converted line items (the dict
literal inserts the lineItems key before the optional keys; the loop then
fills it in place). -/
def encodeFullPayload (pr : PaymentRequestInvoiceCommand) :
    Except PyError Json :=
  match pr.line_items.mapM encodeLineItem with
  | .error e => .error e
  | .ok items =>
    .ok (Json.obj ([("requestType", Json.str pr.request_type),
        ("selectedPaymentMethods",
          Json.arr (pr.selected_payment_methods.map Json.str)),
        ("balanceId", Json.num (pr.balance_id : Rat)),
        ("dueAt", Json.str pr.due_at),
        ("issueDate", Json.str pr.issue_date),
        ("lineItems", Json.arr items)]
      ++ (match pr.invoice_number with
          | some j => if jsonTruthy j then [("invoiceNumber", j)] else []
          | none => [])
      ++ (match pr.message with
          | some m => if m != "" then [("message", Json.str m)] else []
          | none => [])
      ++ (match pr.payer with
          | some p => [("payer", encodePayer p)]
          | none => [])))

/-- Modelled from the spec: the profile context returned by the
wise_client_helper collaborator (profile listing/selection, which the spec
treats as an external collaborator specified only at its boundary); the file
defining init_wise_client is not among the sources.  The orchestration only
reads the selected profile identifier from it. -/
structure WiseCtx where
  profile_id : String

/-- One raw line item dict as accepted by the exposed create_invoice
operation (invoice_creation.py lines 43-50): name, amount, currency,
quantity and the optional tax triple. -/
structure LineItemInput where
  name : String
  amount : Rat
  currency : String
  quantity : Int
  tax_name : Option String := none
  tax_percentage : Option Rat := none
  tax_behaviour : Option String := none

/-- The arguments of the exposed create_invoice operation
(invoice_creation.py lines 21-32). -/
structure CreateInvoiceArgs where
  profile_type : String
  balance_id : Int
  due_days : Int
  line_items : List LineItemInput
  payer_name : Option String := none
  payer_email : Option String := none
  payer_contact_id : Option String := none
  invoice_number : Option String := none
  message : Option String := none
  issue_date : Option String := none

/-- The remote calls the orchestration can issue, with the arguments passed
at each call site. -/
inductive RemoteCall where
  | createEmptyInvoice (profile_id : String) (balance_id : Int)
      (due_at issue_date : String)
  | updatePaymentRequest (profile_id : String) (payment_request_id : String)
      (cmd : PaymentRequestInvoiceCommand)
  | publishPaymentRequest (profile_id : String) (payment_request_id : String)
  | getBalanceCurrencies (profile_id : String)

/-- The lifecycle step a remote call belongs to. -/
inductive Step where
  | ALLOCATE
  | POPULATE
  | PUBLISH
  | LIST_BALANCES
deriving DecidableEq, Repr

/-- Which lifecycle step each remote call realises. -/
def callStep : RemoteCall → Step
  | .createEmptyInvoice .. => .ALLOCATE
  | .updatePaymentRequest .. => .POPULATE
  | .publishPaymentRequest .. => .PUBLISH
  | .getBalanceCurrencies .. => .LIST_BALANCES

/-- The environment a create_invoice invocation runs against: the current
instant (abstract, measured in days) and the outcome of each remote call the
flow can issue, each call being issued at most once. -/
structure InvoiceFlowEnv where
  now : Int
  init : Except PyError WiseCtx
  allocate : Except PyError PaymentRequestV2
  populate : Except PyError PaymentRequestV2
  publish : Except PyError PaymentRequestV2

/-- Timestamp rendering: the sources format instants with a fixed strftime
pattern; the claims depend only on both call sites receiving the same
rendered value, so instants are rendered abstractly. -/
def formatTs (t : Int) : String := toString t ++ "Z"

/-- Python str.lower(), modelled over the character list (the sources only
apply it to ASCII profile-type strings). -/
def strLower (s : String) : String := String.mk (s.data.map Char.toLower)

/-- The due date computed once at invocation time
(invoice_creation.py line 72): now + due_days, rendered. -/
def dueDateOf (env : InvoiceFlowEnv) (a : CreateInvoiceArgs) : String :=
  formatTs (env.now + a.due_days)

/-- The issue date computed once at invocation time
(invoice_creation.py lines 75-76): the caller-supplied value when truthy,
today otherwise. -/
def issueDateOf (env : InvoiceFlowEnv) (a : CreateInvoiceArgs) : String :=
  match a.issue_date with
  | some s => if s != "" then s else formatTs env.now
  | none => formatTs env.now

/-- Invoice-number adoption (invoice_creation.py lines 92-93): when the
caller supplied no truthy invoice number and the allocated draft carries a
truthy invoice mapping with a truthy invoiceNumber entry, that entry is
adopted; `.get` on a truthy non-dict invoice raises. -/
def resolveInvoiceNumber (a : CreateInvoiceArgs)
    (empty_invoice : PaymentRequestV2) : Except PyError (Option Json) :=
  if optStrTruthy a.invoice_number then
    .ok (a.invoice_number.map Json.str)
  else
    match empty_invoice.invoice with
    | none => .ok (a.invoice_number.map Json.str)
    | some inv =>
      if jsonTruthy inv then
        match pyDictGet inv "invoiceNumber" with
        | .error e => .error e
        | .ok (some j) =>
          if jsonTruthy j then .ok (some j)
          else .ok (a.invoice_number.map Json.str)
        | .ok none => .ok (a.invoice_number.map Json.str)
      else .ok (a.invoice_number.map Json.str)

/-- Payer assembly (invoice_creation.py lines 96-102): a PayerV2 is built
exactly when at least one of name, email, contact_id is truthy. -/
def buildPayer (a : CreateInvoiceArgs) : Option PayerV2 :=
  if optStrTruthy a.payer_name || optStrTruthy a.payer_email ||
      optStrTruthy a.payer_contact_id then
    some { contact_id := a.payer_contact_id, name := a.payer_name,
           email := a.payer_email, address := none }
  else none

/-- Conversion of one raw line item (invoice_creation.py lines 106-127):
the unit price is constructed as `Money(value=..., currency=...)`; the tax
object is built when tax_name is truthy and tax_percentage is not None,
with behaviour defaulting to EXCLUDED. -/
def convertLineItem (item : LineItemInput) : Except PyError LineItem :=
  match moneyNew [("value", Json.num item.amount),
                  ("currency", Json.str item.currency)] with
  | .error e => .error e
  | .ok unit_price =>
    let tax : Option LineItemTax :=
      match item.tax_name, item.tax_percentage with
      | some tn, some tp =>
        if tn != "" then
          some { name := tn, percentage := tp,
                 behaviour := item.tax_behaviour.getD "EXCLUDED" }
        else none
      | _, _ => none
    .ok { name := item.name, unit_price := unit_price,
          quantity := item.quantity, tax := tax }

/-- The command object assembled for the populate step
(invoice_creation.py lines 92-138): invoice-number adoption, payer assembly
and line-item conversion, then the PaymentRequestInvoiceCommand whose
due_at/issue_date are the values computed once before step 1. -/
def buildPopulateCmd (a : CreateInvoiceArgs)
    (empty_invoice : PaymentRequestV2) (due_date issue_date : String) :
    Except PyError PaymentRequestInvoiceCommand :=
  match resolveInvoiceNumber a empty_invoice with
  | .error e => .error e
  | .ok inv_num =>
    match a.line_items.mapM convertLineItem with
    | .error e => .error e
    | .ok items =>
      .ok { balance_id := a.balance_id, due_at := due_date,
            invoice_number := inv_num, payer := buildPayer a,
            line_items := items, issue_date := issue_date,
            message := a.message }

/-- The success report (invoice_creation.py line 152); reading an
invoiceNumber from a truthy non-dict invoice raises inside the f-string. -/
def successMsg (p : PaymentRequestV2) : Except PyError String :=
  match
    (match p.invoice with
     | some inv =>
       if jsonTruthy inv then
         match pyDictGet inv "invoiceNumber" with
         | .error e => Except.error e
         | .ok v => Except.ok (pyStr (v.getD Json.null))
       else Except.ok "N/A"
     | none => Except.ok "N/A") with
  | .error e => .error e
  | .ok invPart =>
    let linkPart :=
      match p.link with
      | some l => if jsonTruthy l then pyStr l else "N/A"
      | none => "N/A"
    .ok ("Invoice created and published successfully! ID: " ++ pyStr p.id ++
      ", Invoice Number: " ++ invPart ++ ", Status: " ++ pyStr p.status ++
      ", Link: " ++ linkPart)

/-- The failure report of the exception handler
(invoice_creation.py line 158). -/
def failMsg (e : PyError) : String :=
  "Failed to create invoice: " ++ pyErrMsg e

/-- The exposed create_invoice operation (invoice_creation.py lines 21-158),
returning the string result (or the propagated exception when profile
initialisation, which sits outside the try block, fails) together with the
trace of remote calls issued.  The business gate precedes everything; the
due and issue dates are computed once; the three lifecycle calls are issued
in sequence, each step reached only after the previous one returned
successfully, and any exception inside the try block short-circuits into the
failure report. -/
def createInvoice (env : InvoiceFlowEnv) (a : CreateInvoiceArgs) :
    Except PyError String × List RemoteCall :=
  if strLower a.profile_type != "business" then
    (.ok ("Error: Invoices are only available for business profiles. " ++
      "Personal profiles cannot create invoices."), [])
  else
    match env.init with
    | .error e => (.error e, [])
    | .ok ctx =>
      let due_date := dueDateOf env a
      let issue_date := issueDateOf env a
      let allocCall := RemoteCall.createEmptyInvoice ctx.profile_id
        a.balance_id due_date issue_date
      match env.allocate with
      | .error e => (.ok (failMsg e), [allocCall])
      | .ok empty_invoice =>
        match buildPopulateCmd a empty_invoice due_date issue_date with
        | .error e => (.ok (failMsg e), [allocCall])
        | .ok cmd =>
          match encodeFullPayload cmd with
          | .error e => (.ok (failMsg e), [allocCall])
          | .ok _ =>
            let popCall := RemoteCall.updatePaymentRequest ctx.profile_id
              (pyStr empty_invoice.id) cmd
            match env.populate with
            | .error e => (.ok (failMsg e), [allocCall, popCall])
            | .ok updated_invoice =>
              let pubCall := RemoteCall.publishPaymentRequest ctx.profile_id
                (pyStr updated_invoice.id)
              match env.publish with
              | .error e => (.ok (failMsg e), [allocCall, popCall, pubCall])
              | .ok published_invoice =>
                match successMsg published_invoice with
                | .error e =>
                  (.ok (failMsg e), [allocCall, popCall, pubCall])
                | .ok s => (.ok s, [allocCall, popCall, pubCall])

/-- The environment a get_balance_currencies invocation runs against. -/
structure BalancesEnv where
  init : Except PyError WiseCtx
  currencyOptions : Except PyError Json

/-- One line of the balance listing (invoice_creation.py line 194):
subscripts raise on missing keys or non-dict entries. -/
def balanceLine (b : Json) : Except PyError String :=
  match pyGetItem b "currency" with
  | .error e => .error e
  | .ok c =>
    match pyGetItem b "id" with
    | .error e => .error e
    | .ok i =>
      .ok ("• Currency: " ++ pyStr c ++ ", Balance ID: " ++ pyStr i ++ "\n")

/-- The listing built from the currency-options response
(invoice_creation.py lines 187-196): a falsy or absent balances entry yields
the no-balances message, otherwise each entry is rendered; iterating a
truthy non-list balances value raises while formatting. -/
def balancesReport (currencies : Json) : Except PyError String :=
  match pyDictGet currencies "balances" with
  | .error e => .error e
  | .ok none => .ok "No balances found for this profile."
  | .ok (some b) =>
    if jsonTruthy b then
      match b with
      | .arr xs =>
        match xs.mapM balanceLine with
        | .error e => .error e
        | .ok lines =>
          .ok ("Available balances for invoice creation " ++
            "(business profiles only):\n\n" ++ String.join lines)
      | _ => .error (.typeError "balances entries are not iterable dicts")
    else .ok "No balances found for this profile."

/-- The exposed get_balance_currencies operation
(invoice_creation.py lines 162-199): only the value "personal"
(case-insensitively) is turned away before the profile context is built;
any other profile type proceeds to the remote currency-options call. -/
def getBalanceCurrencies (env : BalancesEnv) (profile_type : String) :
    Except PyError String × List RemoteCall :=
  if strLower profile_type == "personal" then
    (.ok ("Warning: Invoices are only available for business profiles. " ++
      "Personal profiles cannot create invoices. Please use profile_type=" ++
      sglq ++ "business" ++ sglq ++ " instead."), [])
  else
    match env.init with
    | .error e => (.error e, [])
    | .ok ctx =>
      let call := RemoteCall.getBalanceCurrencies ctx.profile_id
      match env.currencyOptions with
      | .error e =>
        (.ok ("Failed to get balance currencies: " ++ pyErrMsg e), [call])
      | .ok currencies =>
        match balancesReport currencies with
        | .error e =>
          (.ok ("Failed to get balance currencies: " ++ pyErrMsg e), [call])
        | .ok s => (.ok s, [call])

/-- A 2xx response body carrying every field the contract treats as
mandatory, with the amount as the nested value/currency pair. -/
def fullPayload : Json :=
  Json.obj [("id", Json.str "pr_1"),
            ("amount", Json.obj [("value", Json.num 10),
                                 ("currency", Json.str "EUR")]),
            ("profileId", Json.num 5),
            ("balanceId", Json.num 9),
            ("creator", Json.obj [("id", Json.num 1)]),
            ("status", Json.str "DRAFT")]

/-- The Money construction written at all three decode sites rejects the
keyword `value`, which is not a declared Money field. -/
theorem moneyNew_value_kw (v c : Json) :
    moneyNew [("value", v), ("currency", c)] =
      .error (.typeError "unexpected or missing keyword argument") := rfl

/-- Claim C1: the decode operation shared by the three orchestration call
sites never returns a PaymentRequest entity — even a payload carrying all
mandatory fields (id, amount.value, amount.currency, profileId, balanceId,
creator, status) raises a TypeError, because the Money dataclass declares
the field `amount` while every call site constructs it with the keyword
`value`.  This refutes the claimed "never a type error" behaviour on every
input. -/
theorem decode_always_raises_type_error :
    decodePaymentRequest fullPayload =
      .error (.typeError "unexpected or missing keyword argument") ∧
    ∀ r, exceptIsOk (decodePaymentRequest r) = false := by
  refine ⟨rfl, ?_⟩
  intro r
  unfold decodePaymentRequest
  repeat' split
  all_goals simp_all [exceptIsOk, moneyNew_value_kw]

/-- A funding response with status 403 whose headers carry no approval
result at all. -/
def resp403Bare : HttpResponse :=
  { status_code := 403,
    headers := [("content-type", "application/json")],
    body := .ok (Json.obj []) }

/-- Claim C2: a 403 funding response whose x-2fa-approval-result header is
absent is NOT signalled as a failure — the `elif status >= 400` branch of
fund_transfer is attached to the outer `if status == 403`, so the response
falls through to the 2xx path and a Funded outcome is built from the error
body.  The claim (and the spec) require a RemoteCallFailed error here. -/
theorem fund_transfer_403_not_rejected_returns_funded :
    fund_transfer "BALANCE" resp403Bare =
      .ok { fund_response := some { type := Json.str "",
                                    status := Json.str "",
                                    error_code := none },
            sca_response := none } := rfl

/-- Claim C5: a 403 funding response whose x-2fa-approval-result header
equals REJECTED is classified as an SCA challenge whose one-time token is
exactly the value of the x-2fa-approval header, whatever the body holds
(even an unparseable one). -/
theorem fund_transfer_rejected_challenge (hdrs : List (String × String))
    (body : Except Unit Json) (tok : String)
    (hres : headerGet hdrs "x-2fa-approval-result" = some "REJECTED")
    (htok : headerGet hdrs "x-2fa-approval" = some tok) :
    fund_transfer "BALANCE"
        { status_code := 403, headers := hdrs, body := body } =
      .ok { fund_response := none,
            sca_response := some { one_time_token := some tok } } := by
  unfold fund_transfer
  simp [hres, htok]

/-- Witness for claim C5 at the concrete token "tok_abc" and an unparseable
body. -/
theorem fund_transfer_rejected_challenge_witness :
    fund_transfer "BALANCE"
        { status_code := 403,
          headers := [("x-2fa-approval-result", "REJECTED"),
                      ("x-2fa-approval", "tok_abc")],
          body := .error () } =
      .ok { fund_response := none,
            sca_response := some { one_time_token := some "tok_abc" } } :=
  fund_transfer_rejected_challenge _ _ "tok_abc" rfl rfl

/-- Claim C7: when a remote call fails with an unparseable body, the
error-raising helper does not produce the generic "HTTP {status}" message —
it crashes with a NameError, because the raise statement interpolates the
variable error_data, which the failed json() parse left unbound (the
extracted error_msg, including the generic fallback, is computed and then
never used). -/
theorem handle_error_unparseable_body_raises_name_error :
    handleError { status_code := 500, headers := [], body := .error () } =
      .nameError "error_data" := rfl

/-- A populated command whose single line item carries a correctly built
Money unit price (attributes amount and currency, as the dataclass
declares) and a tax. -/
def cmdWithTaxItem : PaymentRequestInvoiceCommand :=
  { balance_id := 1, due_at := "0Z", issue_date := "0Z",
    line_items := [{ name := "Widget",
                     unit_price := [("amount", Json.num 5),
                                    ("currency", Json.str "EUR")],
                     quantity := 1,
                     tax := some { name := "VAT", percentage := 20,
                                   behaviour := "EXCLUDED" } }] }

/-- Claim C8: the full-update encoder cannot emit any payload — tax block
included — for a draft containing a line item: it reads the attribute
`value` of the unit price (wise_client.py line 546) while the Money
dataclass declares `amount`, so encoding raises AttributeError instead of
emitting the claimed tax block. -/
theorem encode_full_line_item_attribute_error :
    encodeFullPayload cmdWithTaxItem = .error (.attributeError "value") :=
  rfl

/-- A fixed profile context. -/
def ctxP : WiseCtx := { profile_id := "p1" }

/-- A remote payment-request entity as the allocate step reports it. -/
def prOk : PaymentRequestV2 :=
  { id := Json.str "pr_123",
    amount := [("amount", Json.num 10), ("currency", Json.str "EUR")],
    profile_id := Json.num 5, balance_id := Json.num 9,
    creator := Json.obj [], status := Json.str "DRAFT" }

/-- The same entity under a different draft identifier. -/
def prOk456 : PaymentRequestV2 := { prOk with id := Json.str "pr_456" }

/-- Arguments with no line items. -/
def argsNoItems : CreateInvoiceArgs :=
  { profile_type := "business", balance_id := 7, due_days := 30,
    line_items := [] }

/-- Arguments carrying a line item with a negative quantity and a negative
unit amount. -/
def argsBadItem : CreateInvoiceArgs :=
  { profile_type := "business", balance_id := 7, due_days := 30,
    line_items := [{ name := "Widget", amount := -5, currency := "EUR",
                     quantity := -1 }] }

/-- An environment whose allocate call fails. -/
def envAllocFail : InvoiceFlowEnv :=
  { now := 0, init := .ok ctxP, allocate := .error (.exception "E"),
    populate := .error (.exception "E"), publish := .error (.exception "E") }

/-- Claim C3: create_invoice performs no precondition validation — invoked
with a line item whose quantity is -1 and whose unit amount is -5, it still
issues the ALLOCATE remote call (and reports the remote failure), instead
of returning a validation error with zero remote calls as claimed. -/
theorem create_invoice_invalid_item_not_validated :
    createInvoice envAllocFail argsBadItem =
      (.ok "Failed to create invoice: E",
       [RemoteCall.createEmptyInvoice "p1" 7 "30Z" "0Z"]) := rfl

/-- Claim C3 (amended): create_invoice validates nothing about its payload
before going remote — whenever the profile type is business and the profile
context is available, the very first action is the ALLOCATE remote call,
whatever the balance, quantities or amounts are; no validation error path
exists. -/
theorem create_invoice_no_precondition_checks (env : InvoiceFlowEnv)
    (a : CreateInvoiceArgs) (ctx : WiseCtx)
    (hb : strLower a.profile_type = "business")
    (hi : env.init = .ok ctx) :
    (createInvoice env a).2.head? =
      some (RemoteCall.createEmptyInvoice ctx.profile_id a.balance_id
        (dueDateOf env a) (issueDateOf env a)) := by
  unfold createInvoice
  rw [hb, hi]
  simp only [bne_self_eq_false, Bool.false_eq_true, if_false]
  repeat' split
  all_goals rfl

/-- Witness for claim C3 (amended) at the concrete invalid-item input. -/
theorem create_invoice_no_precondition_checks_witness :
    (createInvoice envAllocFail argsBadItem).2.head? =
      some (RemoteCall.createEmptyInvoice "p1" 7 "30Z" "0Z") :=
  create_invoice_no_precondition_checks envAllocFail argsBadItem ctxP
    (by decide) rfl

/-- Claim C4: the remote calls issued by one create_invoice invocation
always form a prefix of ALLOCATE, POPULATE, PUBLISH (strictly sequential, no
reordering, nothing after a failed step), POPULATE is only reached after the
allocate call returned successfully, and PUBLISH only after both allocate
and populate returned successfully. -/
theorem create_invoice_steps_in_order (env : InvoiceFlowEnv)
    (a : CreateInvoiceArgs) :
    ((createInvoice env a).2.map callStep) <+:
        [Step.ALLOCATE, Step.POPULATE, Step.PUBLISH] ∧
    (Step.POPULATE ∈ (createInvoice env a).2.map callStep →
      exceptIsOk env.allocate = true) ∧
    (Step.PUBLISH ∈ (createInvoice env a).2.map callStep →
      exceptIsOk env.allocate = true ∧ exceptIsOk env.populate = true) := by
  unfold createInvoice
  by_cases hb : (strLower a.profile_type != "business") = true
  · simp [hb, List.nil_prefix]
  · rw [Bool.not_eq_true] at hb
    rcases hinit : env.init with e | ctx
    · simp [hb, hinit, List.nil_prefix]
    · rcases halloc : env.allocate with e | ei
      · simp [hb, hinit, halloc, callStep, exceptIsOk,
          List.cons_prefix_cons, List.nil_prefix]
      · rcases hcmd : buildPopulateCmd a ei (dueDateOf env a)
            (issueDateOf env a) with e | cmd
        · simp [hb, hinit, halloc, hcmd, callStep, exceptIsOk,
            List.cons_prefix_cons, List.nil_prefix]
        · rcases henc : encodeFullPayload cmd with e | pl
          · simp [hb, hinit, halloc, hcmd, henc, callStep, exceptIsOk,
              List.cons_prefix_cons, List.nil_prefix]
          · rcases hpop : env.populate with e | ui
            · simp [hb, hinit, halloc, hcmd, henc, hpop, callStep,
                exceptIsOk, List.cons_prefix_cons, List.nil_prefix]
            · rcases hpub : env.publish with e | pi
              · simp [hb, hinit, halloc, hcmd, henc, hpop, hpub, callStep,
                  exceptIsOk, List.cons_prefix_cons, List.nil_prefix]
              · rcases hmsg : successMsg pi with e | s
                · simp [hb, hinit, halloc, hcmd, henc, hpop, hpub, hmsg,
                    callStep, exceptIsOk, List.cons_prefix_cons,
                    List.nil_prefix]
                · simp [hb, hinit, halloc, hcmd, henc, hpop, hpub, hmsg,
                    callStep, exceptIsOk, List.cons_prefix_cons,
                    List.nil_prefix]

/-- An environment in which all three lifecycle calls succeed. -/
def envAllOk : InvoiceFlowEnv :=
  { now := 0, init := .ok ctxP, allocate := .ok prOk, populate := .ok prOk,
    publish := .ok prOk }

/-- Witness for claim C4: on a fully successful run all three steps appear,
in order, and the success of the earlier steps is recoverable from the
ordering theorem. -/
theorem create_invoice_steps_in_order_witness :
    ((createInvoice envAllOk argsNoItems).2.map callStep) <+:
        [Step.ALLOCATE, Step.POPULATE, Step.PUBLISH] ∧
    (exceptIsOk envAllOk.allocate = true ∧
     exceptIsOk envAllOk.populate = true) := by
  refine ⟨(create_invoice_steps_in_order envAllOk argsNoItems).1,
    (create_invoice_steps_in_order envAllOk argsNoItems).2.2 ?_⟩
  have h : (createInvoice envAllOk argsNoItems).2.map callStep =
      [Step.ALLOCATE, Step.POPULATE, Step.PUBLISH] := rfl
  rw [h]
  simp

/-- An environment whose populate call fails after a successful allocate. -/
def envPopFail : InvoiceFlowEnv :=
  { now := 0, init := .ok ctxP, allocate := .ok prOk,
    populate := .error (.exception "boom"), publish := .ok prOk }

/-- An environment whose publish call fails after successful allocate and
populate, with the same underlying message. -/
def envPubFail : InvoiceFlowEnv :=
  { now := 0, init := .ok ctxP, allocate := .ok prOk,
    populate := .ok prOk, publish := .error (.exception "boom") }

/-- Like envPopFail but the allocate step reports a different draft id. -/
def envPopFailOther : InvoiceFlowEnv :=
  { now := 0, init := .ok ctxP, allocate := .ok prOk456,
    populate := .error (.exception "boom"), publish := .ok prOk }

/-- Claim C6: the failure result returned to the caller does not identify
the failing step and does not carry the allocate-step draft id.  A run
whose POPULATE fails and a run whose PUBLISH fails (same underlying
message) return the exact same string, so no reading of the result can
tell which step failed; and two runs whose allocated drafts have different
ids (pr_123 versus pr_456) also return the same string, so the draft id is
not discoverable from the result either. -/
theorem create_invoice_failure_hides_step_and_draft_id :
    (createInvoice envPopFail argsNoItems).1 =
      .ok "Failed to create invoice: boom" ∧
    (createInvoice envPubFail argsNoItems).1 =
      (createInvoice envPopFail argsNoItems).1 ∧
    (createInvoice envPopFailOther argsNoItems).1 =
      (createInvoice envPopFail argsNoItems).1 :=
  ⟨rfl, rfl, rfl⟩

/-- When the allocated draft carries no invoice mapping, the caller-supplied
invoice number (possibly None) is kept as is. -/
theorem resolveInvoiceNumber_no_invoice (a : CreateInvoiceArgs)
    (pr : PaymentRequestV2) (hinv : pr.invoice = none) :
    resolveInvoiceNumber a pr = .ok (a.invoice_number.map Json.str) := by
  unfold resolveInvoiceNumber
  rw [hinv]
  split <;> rfl

/-- The populate command assembled for a draft that carries no invoice
mapping and an argument list with no line items. -/
theorem buildPopulateCmd_no_items (a : CreateInvoiceArgs)
    (pr : PaymentRequestV2) (d i : String)
    (hinv : pr.invoice = none) (hitems : a.line_items = []) :
    buildPopulateCmd a pr d i =
      .ok { balance_id := a.balance_id, due_at := d,
            invoice_number := a.invoice_number.map Json.str,
            payer := buildPayer a, line_items := [], issue_date := i,
            message := a.message } := by
  unfold buildPopulateCmd
  rw [resolveInvoiceNumber_no_invoice a pr hinv, hitems]
  rfl

/-- Claim C6 (amended): when POPULATE fails after a successful ALLOCATE,
the caller receives exactly "Failed to create invoice: " followed by the
underlying error text — nothing more: neither the failing step nor the
draft id is part of the returned value (they are only printed to stdout). -/
theorem create_invoice_populate_failure_generic_message
    (env : InvoiceFlowEnv) (a : CreateInvoiceArgs) (ctx : WiseCtx)
    (pr : PaymentRequestV2) (e : PyError)
    (hb : strLower a.profile_type = "business")
    (hi : env.init = .ok ctx) (ha : env.allocate = .ok pr)
    (hinv : pr.invoice = none) (hitems : a.line_items = [])
    (hp : env.populate = .error e) :
    (createInvoice env a).1 =
      .ok ("Failed to create invoice: " ++ pyErrMsg e) := by
  unfold createInvoice
  simp [hb, hi, ha,
    buildPopulateCmd_no_items a pr (dueDateOf env a) (issueDateOf env a)
      hinv hitems,
    hp, encodeFullPayload, List.mapM, List.mapM.loop, pure, Except.pure,
    failMsg]

/-- Witness for claim C6 (amended) at the concrete boom-failure input. -/
theorem create_invoice_populate_failure_generic_message_witness :
    (createInvoice envPopFail argsNoItems).1 =
      .ok ("Failed to create invoice: " ++ pyErrMsg (.exception "boom")) :=
  create_invoice_populate_failure_generic_message envPopFail argsNoItems
    ctxP prOk (.exception "boom") rfl rfl rfl rfl rfl rfl

/-- A balances environment for a profile context p9 whose currency-options
response carries an empty balances list. -/
def envBalFoo : BalancesEnv :=
  { init := .ok { profile_id := "p9" },
    currencyOptions := .ok (Json.obj [("balances", Json.arr [])]) }

/-- Claim C9: get_balance_currencies does not reject every non-business
profile type — the gate only turns away "personal", so the non-business
value "foo" passes it and the balance-listing remote call is issued. -/
theorem get_balance_currencies_nonbusiness_still_calls :
    getBalanceCurrencies envBalFoo "foo" =
      (.ok "No balances found for this profile.",
       [RemoteCall.getBalanceCurrencies "p9"]) ∧
    strLower "foo" ≠ "business" :=
  ⟨rfl, by decide⟩

/-- Claim C9 (amended): create_invoice rejects every profile type other
than business (case-insensitively) with a descriptive string and zero
remote calls, while get_balance_currencies rejects only the value personal
(case-insensitively) with a warning string and zero remote calls — any
other non-business value proceeds to the remote call. -/
theorem profile_gate_asymmetry :
    (∀ (env : InvoiceFlowEnv) (a : CreateInvoiceArgs),
      strLower a.profile_type ≠ "business" →
      createInvoice env a =
        (.ok ("Error: Invoices are only available for business profiles. " ++
          "Personal profiles cannot create invoices."), [])) ∧
    (∀ (env : BalancesEnv) (pt : String), strLower pt = "personal" →
      getBalanceCurrencies env pt =
        (.ok ("Warning: Invoices are only available for business profiles. " ++
          "Personal profiles cannot create invoices. " ++
          "Please use profile_type=" ++ sglq ++ "business" ++ sglq ++
          " instead."), [])) := by
  constructor
  · intro env a h
    unfold createInvoice
    have hcond : (strLower a.profile_type != "business") = true := by
      rwa [bne_iff_ne]
    rw [hcond]
    simp
  · intro env pt h
    unfold getBalanceCurrencies
    have hcond : (strLower pt == "personal") = true := by
      rwa [beq_iff_eq]
    rw [hcond]
    simp

/-- Arguments using the personal profile type. -/
def argsPersonal : CreateInvoiceArgs :=
  { profile_type := "personal", balance_id := 0, due_days := 0,
    line_items := [] }

/-- Witness for claim C9 (amended): both gates fire on their own rejected
inputs and issue no remote call. -/
theorem profile_gate_asymmetry_witness :
    createInvoice envAllocFail argsPersonal =
      (.ok ("Error: Invoices are only available for business profiles. " ++
        "Personal profiles cannot create invoices."), []) ∧
    getBalanceCurrencies envBalFoo "PERSONAL" =
      (.ok ("Warning: Invoices are only available for business profiles. " ++
        "Personal profiles cannot create invoices. " ++
        "Please use profile_type=" ++ sglq ++ "business" ++ sglq ++
        " instead."), []) :=
  ⟨profile_gate_asymmetry.1 envAllocFail argsPersonal (by decide),
   profile_gate_asymmetry.2 envBalFoo "PERSONAL" (by decide)⟩

/-- The fields of a successfully assembled populate command come verbatim
from the due/issue dates passed to it. -/
theorem buildPopulateCmd_dates (a : CreateInvoiceArgs)
    (pr : PaymentRequestV2) (d i : String)
    (cmd : PaymentRequestInvoiceCommand)
    (h : buildPopulateCmd a pr d i = .ok cmd) :
    cmd.due_at = d ∧ cmd.issue_date = i := by
  unfold buildPopulateCmd at h
  repeat' split at h
  all_goals simp_all
  all_goals (cases h; exact ⟨rfl, rfl⟩)

/-- Claim C10: within a single create_invoice invocation, every ALLOCATE
call in the trace carries exactly the once-computed due date
(now + due_days, rendered) and issue date (now unless supplied), and every
POPULATE call carries a command whose dueAt and issueDate equal those same
values — so the two payloads always agree on both timestamps. -/
theorem create_invoice_dates_computed_once (env : InvoiceFlowEnv)
    (a : CreateInvoiceArgs) :
    (∀ pid bid d i,
      RemoteCall.createEmptyInvoice pid bid d i ∈ (createInvoice env a).2 →
      d = dueDateOf env a ∧ i = issueDateOf env a) ∧
    (∀ pid prid cmd,
      RemoteCall.updatePaymentRequest pid prid cmd ∈
          (createInvoice env a).2 →
      cmd.due_at = dueDateOf env a ∧
      cmd.issue_date = issueDateOf env a) := by
  unfold createInvoice
  by_cases hb : (strLower a.profile_type != "business") = true
  · constructor
    · intro pid bid d i hmem
      simp [hb] at hmem
    · intro pid prid cmd hmem
      simp [hb] at hmem
  · rw [Bool.not_eq_true] at hb
    rcases hinit : env.init with e | ctx
    · constructor
      · intro pid bid d i hmem
        simp [hb, hinit] at hmem
      · intro pid prid cmd hmem
        simp [hb, hinit] at hmem
    · rcases halloc : env.allocate with e | ei
      · constructor
        · intro pid bid d i hmem
          simp [hb, hinit, halloc] at hmem
          simp_all
        · intro pid prid cmd hmem
          simp [hb, hinit, halloc] at hmem
      · rcases hcmd : buildPopulateCmd a ei (dueDateOf env a)
            (issueDateOf env a) with e | cmd0
        · constructor
          · intro pid bid d i hmem
            simp [hb, hinit, halloc, hcmd] at hmem
            simp_all
          · intro pid prid cmd hmem
            simp [hb, hinit, halloc, hcmd] at hmem
        · rcases henc : encodeFullPayload cmd0 with e | pl
          · constructor
            · intro pid bid d i hmem
              simp [hb, hinit, halloc, hcmd, henc] at hmem
              simp_all
            · intro pid prid cmd hmem
              simp [hb, hinit, halloc, hcmd, henc] at hmem
          · rcases hpop : env.populate with e | ui
            · constructor
              · intro pid bid d i hmem
                simp [hb, hinit, halloc, hcmd, henc, hpop] at hmem
                simp_all
              · intro pid prid cmd hmem
                simp [hb, hinit, halloc, hcmd, henc, hpop] at hmem
                obtain ⟨-, -, rfl⟩ := hmem
                exact buildPopulateCmd_dates a ei _ _ _ hcmd
            · rcases hpub : env.publish with e | pi
              · constructor
                · intro pid bid d i hmem
                  simp [hb, hinit, halloc, hcmd, henc, hpop, hpub] at hmem
                  simp_all
                · intro pid prid cmd hmem
                  simp [hb, hinit, halloc, hcmd, henc, hpop, hpub] at hmem
                  obtain ⟨-, -, rfl⟩ := hmem
                  exact buildPopulateCmd_dates a ei _ _ _ hcmd
              · rcases hmsg : successMsg pi with e | s
                · constructor
                  · intro pid bid d i hmem
                    simp [hb, hinit, halloc, hcmd, henc, hpop, hpub,
                      hmsg] at hmem
                    simp_all
                  · intro pid prid cmd hmem
                    simp [hb, hinit, halloc, hcmd, henc, hpop, hpub,
                      hmsg] at hmem
                    obtain ⟨-, -, rfl⟩ := hmem
                    exact buildPopulateCmd_dates a ei _ _ _ hcmd
                · constructor
                  · intro pid bid d i hmem
                    simp [hb, hinit, halloc, hcmd, henc, hpop, hpub,
                      hmsg] at hmem
                    simp_all
                  · intro pid prid cmd hmem
                    simp [hb, hinit, halloc, hcmd, henc, hpop, hpub,
                      hmsg] at hmem
                    obtain ⟨-, -, rfl⟩ := hmem
                    exact buildPopulateCmd_dates a ei _ _ _ hcmd

/-- The command the populate step receives in the envPopFail run. -/
def popCmdNoItems : PaymentRequestInvoiceCommand :=
  { balance_id := 7, due_at := "30Z", invoice_number := none, payer := none,
    line_items := [], issue_date := "0Z", message := none }

/-- Witness for claim C10 at a concrete run in which both the ALLOCATE and
the POPULATE calls occur. -/
theorem create_invoice_dates_computed_once_witness :
    popCmdNoItems.due_at = dueDateOf envPopFail argsNoItems ∧
    popCmdNoItems.issue_date = issueDateOf envPopFail argsNoItems := by
  have ht : (createInvoice envPopFail argsNoItems).2 =
      [RemoteCall.createEmptyInvoice "p1" 7 "30Z" "0Z",
       RemoteCall.updatePaymentRequest "p1" "pr_123" popCmdNoItems] := rfl
  refine (create_invoice_dates_computed_once envPopFail argsNoItems).2
    "p1" "pr_123" popCmdNoItems ?_
  rw [ht]
  exact List.mem_cons_of_mem _ (List.mem_cons_self _ _)
